import Mathlib

/-!
Shallow embedding of the contacts-management backend
(repository layer `src/repository/contacts.py`, `src/repository/users.py`,
route layer `src/routes/contacts.py`, table constraints from
`migrations/versions/e2b5db384efe_init.py`).

The database session is modelled as an explicit list of rows; each
repository coroutine becomes a pure function from the session state (and
its other arguments) to a result, returning the new state where the
source commits a mutation.  SQL `LIKE` is given its standard semantics
(`%` matches any sequence, `_` any single character, everything else
literally, whole-string match).  Python `datetime.date` arithmetic is
modelled by explicit Gregorian day stepping.
-/

/-- Modelled from the spec: the ORM model module (`src/database/models.py`)
is not part of the sources; the `Contact` row type follows the spec's data
model and the `contacts` table of the initial migration (id, name, surname,
email, phone, birthday, nullable description) plus the `user_id` owner
column that every repository query in `src/repository/contacts.py`
references. -/
structure Contact where
  id : Nat
  name : String
  surname : String
  email : String
  phone : String
  birthday_year : Nat
  birthday_month : Nat
  birthday_day : Nat
  description : Option String
  user_id : Nat
deriving Repr, DecidableEq

/-- Modelled from the spec: the ORM `User` row type (module not in the
sources) follows the spec's data model: identifier, username, unique email,
password hash, nullable avatar URL, confirmed flag, nullable refresh
token. -/
structure User where
  id : Nat
  username : String
  email : String
  password : String
  avatar : Option String
  confirmed : Bool
  refresh_token : Option String
deriving Repr, DecidableEq

/-- Request body for contact creation/update (`ContactModel` /
`ContactUpdate` in `src/schemas.py`): name, surname, email, phone,
birthday and description. -/
structure ContactModel where
  name : String
  surname : String
  email : String
  phone : String
  birthday_year : Nat
  birthday_month : Nat
  birthday_day : Nat
  description : String
deriving Repr, DecidableEq

/-- Registration body (`UserModel` in `src/schemas.py`). -/
structure UserModel where
  username : String
  email : String
  password : String
deriving Repr, DecidableEq

/-! ## SQL LIKE semantics -/

/-- Standard SQL `LIKE` matching over character lists: `%` matches any
(possibly empty) sequence, `_` matches exactly one character, any other
pattern character matches itself; the whole text must be consumed. -/
def likeMatch : List Char → List Char → Bool
  | [], t => t.isEmpty
  | p :: ps, t =>
    if p == '%' then
      t.tails.any (fun u => likeMatch ps u)
    else
      match t with
      | [] => false
      | c :: ts => (p == '_' || p == c) && likeMatch ps ts

/-- Boolean test that `s` is a prefix of `t`. -/
def prefixEq : List Char → List Char → Bool
  | [], _ => true
  | _ :: _, [] => false
  | c :: s, d :: t => c == d && prefixEq s t

/-- Boolean test that `s` occurs as a contiguous substring of `t`. -/
def substrB (s : List Char) : List Char → Bool
  | [] => prefixEq s []
  | c :: ts => prefixEq s (c :: ts) || substrB s ts

/-- The `LIKE` pattern built by the search queries: `'%' + s + '%'`. -/
def likePat (s : String) : String := "%" ++ s ++ "%"

/-- Application of a `LIKE` pattern to a column value. -/
def sqlLike (field pat : String) : Bool := likeMatch pat.data field.data

/-- Case-sensitive literal substring containment of `s` in a column
value. -/
def containsSub (field s : String) : Bool := substrB s.data field.data

/-- Character list free of the `LIKE` wildcard characters. -/
def noWild (s : List Char) : Bool := s.all (fun c => !(c == '%') && !(c == '_'))

/-! ## Python date arithmetic -/

/-- Gregorian calendar date as Python's `datetime.date` carries it. -/
structure PyDate where
  year : Nat
  month : Nat
  day : Nat
deriving Repr, DecidableEq

/-- Gregorian leap-year rule used by Python's `datetime`. -/
def isLeap (y : Nat) : Bool := y % 4 == 0 && (y % 100 != 0 || y % 400 == 0)

/-- Number of days in a month of a given year. -/
def daysInMonth (y m : Nat) : Nat :=
  if m == 2 then (if isLeap y then 29 else 28)
  else if m == 4 || m == 6 || m == 9 || m == 11 then 30
  else 31

/-- Successor date: `d + timedelta(days=1)`. -/
def nextDay (d : PyDate) : PyDate :=
  if d.day < daysInMonth d.year d.month then
    { d with day := d.day + 1 }
  else if d.month < 12 then
    { year := d.year, month := d.month + 1, day := 1 }
  else
    { year := d.year + 1, month := 1, day := 1 }

/-- Date shifted forward by `n` days: `d + timedelta(days=n)`. -/
def addDays (d : PyDate) : Nat → PyDate
  | 0 => d
  | n + 1 => nextDay (addDays d n)

/-- Birthday of a contact row as a `PyDate`. -/
def Contact.birthday (c : Contact) : PyDate :=
  { year := c.birthday_year, month := c.birthday_month, day := c.birthday_day }

/-! ## Contact repository (`src/repository/contacts.py`) -/

/-- Database error raised at commit by the unique constraints on the
`contacts` table (`UniqueConstraint('email')`, `UniqueConstraint('phone')`
in the initial migration). -/
inductive DBError
  | uniqueEmail
  | uniquePhone
deriving Repr, DecidableEq

/-- Insertion into the `contacts` table: the migration's unique
constraints on `email` and `phone` are global (not scoped by owner), so a
row whose email or phone matches any stored row is rejected and the state
is unchanged. -/
def dbInsertContact (c : Contact) (db : List Contact) : Except DBError (List Contact) :=
  if db.any (fun x => x.email == c.email) then .error .uniqueEmail
  else if db.any (fun x => x.phone == c.phone) then .error .uniquePhone
  else .ok (db ++ [c])

/-- `get_contacts(skip, limit, user, db)`: rows with `user_id == user.id`,
then `offset(skip).limit(limit)`. -/
def get_contacts (skip limit : Nat) (user : User) (db : List Contact) : List Contact :=
  ((db.filter (fun c => c.user_id == user.id)).drop skip).take limit

/-- `get_contact(contact_id, user, db)`: first row with the given id owned
by the user, or `None`. -/
def get_contact (contact_id : Nat) (user : User) (db : List Contact) : Option Contact :=
  db.find? (fun c => c.id == contact_id && c.user_id == user.id)

/-- `get_contacts_name(name, user, db)`: rows whose name matches
`LIKE '%name%'` and whose `user_id` is the caller's. -/
def get_contacts_name (name : String) (user : User) (db : List Contact) : List Contact :=
  db.filter (fun c => sqlLike c.name (likePat name) && c.user_id == user.id)

/-- `get_contacts_surname(surname, user, db)`. -/
def get_contacts_surname (surname : String) (user : User) (db : List Contact) : List Contact :=
  db.filter (fun c => sqlLike c.surname (likePat surname) && c.user_id == user.id)

/-- `get_contacts_email(email_part, user, db)`. -/
def get_contacts_email (email_part : String) (user : User) (db : List Contact) : List Contact :=
  db.filter (fun c => sqlLike c.email (likePat email_part) && c.user_id == user.id)

/-- The key the birthday query builds for a date:
`str(day.day) + str(day.month)` in Python, and on the SQL side
`concat(extract('day', birthday)::text, extract('month', birthday)::text)`. -/
def birthdayKey (d : PyDate) : String := toString d.day ++ toString d.month

/-- `get_contacts_birthday(user, db)` with the current date made explicit:
builds the concatenated day-month keys of today and the next six days and
returns the caller's rows whose birthday key is among them. -/
def get_contacts_birthday (today : PyDate) (user : User) (db : List Contact) : List Contact :=
  let days := (List.range 7).map (fun i => birthdayKey (addDays today i))
  db.filter (fun c => days.contains (birthdayKey c.birthday) && c.user_id == user.id)

/-- Truth of "the (day, month) pair of `b` equals the (day, month) pair of
one of the 7 calendar days `today`, …, `today + 6`" — the year-agnostic
window the spec describes. -/
def inWindow7 (today b : PyDate) : Bool :=
  (List.range 7).any (fun i =>
    (addDays today i).day == b.day && (addDays today i).month == b.month)

/-- `create_contact(body, user, db)`: builds the row from the body with
`user_id = user.id` and a generated primary key, then commits the
insert. -/
def create_contact (body : ContactModel) (user : User) (newId : Nat) (db : List Contact) :
    Except DBError (Contact × List Contact) :=
  let contact : Contact :=
    { id := newId, name := body.name, surname := body.surname, email := body.email,
      phone := body.phone, birthday_year := body.birthday_year,
      birthday_month := body.birthday_month, birthday_day := body.birthday_day,
      description := some body.description, user_id := user.id }
  match dbInsertContact contact db with
  | .error e => .error e
  | .ok db' => .ok (contact, db')

/-- Removal of the first row satisfying `p` (the row `query(...).first()`
found, which `db.delete` deletes). -/
def removeFirst (p : Contact → Bool) : List Contact → List Contact
  | [] => []
  | x :: xs => if p x then xs else x :: removeFirst p xs

/-- In-place overwrite of the first row satisfying `p` by `c'` (the ORM
object mutation that `db.commit()` persists). -/
def replaceFirst (p : Contact → Bool) (c' : Contact) : List Contact → List Contact
  | [] => []
  | x :: xs => if p x then c' :: xs else x :: replaceFirst p c' xs

/-- `remove_contact(contact_id, user, db)`: looks the row up scoped by
owner; deletes and commits when found, otherwise leaves the state alone;
returns what the lookup returned. -/
def remove_contact (contact_id : Nat) (user : User) (db : List Contact) :
    Option Contact × List Contact :=
  match db.find? (fun c => c.id == contact_id && c.user_id == user.id) with
  | none => (none, db)
  | some c => (some c, removeFirst (fun c => c.id == contact_id && c.user_id == user.id) db)

/-- The six-field overwrite `update_contact` performs on the found row
(`ContactUpdate` has exactly the fields of `ContactModel`). -/
def applyUpdate (body : ContactModel) (c : Contact) : Contact :=
  { c with
    name := body.name,
    surname := body.surname,
    email := body.email,
    phone := body.phone,
    birthday_year := body.birthday_year,
    birthday_month := body.birthday_month,
    birthday_day := body.birthday_day,
    description := some body.description }

/-- `update_contact(contact_id, body, user, db)`: looks the row up scoped
by owner; when found, assigns the six body fields and commits, otherwise
no-op; returns what the lookup produced.  The commit re-checks the table's
global unique constraints on `email` and `phone` against every other
stored row: a colliding overwrite raises a uniqueness error and the failed
transaction is rolled back, leaving the store as it was. -/
def update_contact (contact_id : Nat) (body : ContactModel) (user : User) (db : List Contact) :
    Except DBError (Option Contact) × List Contact :=
  match db.find? (fun c => c.id == contact_id && c.user_id == user.id) with
  | none => (.ok none, db)
  | some c =>
    let c' := applyUpdate body c
    let others := removeFirst (fun c => c.id == contact_id && c.user_id == user.id) db
    if others.any (fun x => x.email == c'.email) then (.error .uniqueEmail, db)
    else if others.any (fun x => x.phone == c'.phone) then (.error .uniquePhone, db)
    else (.ok (some c'), replaceFirst (fun c => c.id == contact_id && c.user_id == user.id) c' db)

/-! ## Search routes (`src/routes/contacts.py`) -/

/-- HTTP error raised by the route handlers. -/
inductive HTTPError
  | notFound404
deriving Repr, DecidableEq

/-- Route `GET /contacts/search/name`: raises 404 when the repository
search comes back empty (`if not contacts: raise HTTPException(404)`). -/
def read_contacts_name (name : String) (user : User) (db : List Contact) :
    Except HTTPError (List Contact) :=
  let contacts := get_contacts_name name user db
  if contacts.isEmpty then .error .notFound404 else .ok contacts

/-- Route `GET /contacts/search/surname`. -/
def read_contacts_surname (surname : String) (user : User) (db : List Contact) :
    Except HTTPError (List Contact) :=
  let contacts := get_contacts_surname surname user db
  if contacts.isEmpty then .error .notFound404 else .ok contacts

/-- Route `GET /contacts/search/email`. -/
def read_contacts_email (email : String) (user : User) (db : List Contact) :
    Except HTTPError (List Contact) :=
  let contacts := get_contacts_email email user db
  if contacts.isEmpty then .error .notFound404 else .ok contacts

/-! ## User repository (`src/repository/users.py`) -/

/-- Python runtime error: attribute access on `None`. -/
inductive PyError
  | attributeError
deriving Repr, DecidableEq

/-- `get_user_by_email(email, db)`: first user row with that email, or
`None`. -/
def get_user_by_email (email : String) (db : List User) : Option User :=
  db.find? (fun u => u.email == email)

/-- `create_user(body, db)`: the gravatar lookup is an external call whose
outcome is passed in as an oracle; on any failure the exception is caught
and printed, `avatar` stays `None`, and the user is inserted either way. -/
def create_user (body : UserModel) (gravatar : Except String String) (newId : Nat)
    (db : List User) : User × List User :=
  let avatar : Option String :=
    match gravatar with
    | .ok url => some url
    | .error _ => none
  let new_user : User :=
    { id := newId, username := body.username, email := body.email,
      password := body.password, avatar := avatar, confirmed := false,
      refresh_token := none }
  (new_user, db ++ [new_user])

/-- Overwrite of the first user row satisfying `p`. -/
def replaceFirstUser (p : User → Bool) (u' : User) : List User → List User
  | [] => []
  | x :: xs => if p x then u' :: xs else x :: replaceFirstUser p u' xs

/-- `confirmed_email(email, db)`: looks the user up by email and assigns
`user.confirmed = True` without guarding against an absent result — on a
missing email the attribute assignment on `None` raises. -/
def confirmed_email (email : String) (db : List User) : Except PyError (List User) :=
  match get_user_by_email email db with
  | none => .error .attributeError
  | some u => .ok (replaceFirstUser (fun x => x.email == email) { u with confirmed := true } db)

/-- `update_avatar(email, url, db)`: looks the user up by email and
assigns `user.avatar = url` without guarding against an absent result. -/
def update_avatar (email url : String) (db : List User) : Except PyError (User × List User) :=
  match get_user_by_email email db with
  | none => .error .attributeError
  | some u =>
    let u' := { u with avatar := some url }
    .ok (u', replaceFirstUser (fun x => x.email == email) u' db)

/-! ## Concrete fixtures used by the witness and counterexample theorems -/

/-- Sample authenticated user with id 1. -/
def demoUser : User :=
  { id := 1, username := "alice", email := "alice@example.com", password := "secret",
    avatar := none, confirmed := true, refresh_token := none }

/-- Second sample user with id 2, distinct from `demoUser`. -/
def demoUserB : User :=
  { id := 2, username := "bobby", email := "bob@example.com", password := "secret",
    avatar := none, confirmed := true, refresh_token := none }

/-- Contact owned by `demoUser` whose birthday is February 11. -/
def demoContactFeb11 : Contact :=
  { id := 1, name := "Ann", surname := "Lee", email := "ann@example.com", phone := "111",
    birthday_year := 1990, birthday_month := 2, birthday_day := 11,
    description := none, user_id := 1 }

/-- Contact owned by `demoUser` whose name is the literal string "axb". -/
def demoContactAxb : Contact :=
  { id := 2, name := "axb", surname := "Rey", email := "axb@example.com", phone := "222",
    birthday_year := 1991, birthday_month := 6, birthday_day := 1,
    description := none, user_id := 1 }

/-- Creation body from the spec's round-trip scenario. -/
def demoBody : ContactModel :=
  { name := "Test", surname := "Contact", email := "test@example.com",
    phone := "+380971234567", birthday_year := 1990, birthday_month := 5,
    birthday_day := 15, description := "friend" }

/-- Second creation body sharing `demoBody`'s email. -/
def demoBodyDupEmail : ContactModel :=
  { name := "Other", surname := "Person", email := "test@example.com",
    phone := "+380000000000", birthday_year := 1980, birthday_month := 1,
    birthday_day := 2, description := "dup" }

/-- Registration body for user-repository scenarios. -/
def demoUserBody : UserModel :=
  { username := "carol", email := "carol@example.com", password := "pw1234" }

/-- The row `create_contact demoBody demoUser 1 []` stores. -/
def demoCreated : Contact :=
  { id := 1, name := "Test", surname := "Contact", email := "test@example.com",
    phone := "+380971234567", birthday_year := 1990, birthday_month := 5,
    birthday_day := 15, description := some "friend", user_id := 1 }

/-! ## SQL LIKE lemmas -/

/-- A `LIKE` pattern that is a wildcard-free literal followed by a single
trailing `%` accepts exactly the texts the literal is a prefix of. -/
theorem likeMatch_lit_percent (s : List Char) (hs : noWild s = true) :
    ∀ t, likeMatch (s ++ ['%']) t = prefixEq s t := by
  induction s with
  | nil =>
    intro t
    have h0 : likeMatch ([] ++ ['%']) t = t.tails.any (fun u => likeMatch [] u) := by
      simp [likeMatch]
    rw [h0]
    have : t.tails.any (fun u => likeMatch [] u) = true := by
      rw [List.any_eq_true]
      exact ⟨[], List.mem_tails _ _ |>.2 List.nil_suffix, rfl⟩
    rw [this]; rfl
  | cons c s ih =>
    intro t
    have hall := hs
    rw [noWild, List.all_cons, Bool.and_eq_true] at hall
    obtain ⟨hcc, hc3⟩ := hall
    rw [Bool.and_eq_true] at hcc
    have hc1 : (c == '%') = false := by
      cases h : c == '%' <;> simp [h] at hcc ⊢
    have hc2 : (c == '_') = false := by
      cases h : c == '_' <;> simp [h] at hcc ⊢
    cases t with
    | nil =>
      simp [likeMatch, hc1, prefixEq]
    | cons d ts =>
      simp only [List.cons_append, likeMatch, hc1, Bool.false_eq_true, if_false, hc2,
        Bool.false_or, prefixEq, List.append_eq]
      rw [ih hc3 ts]

/-- Substring containment is prefix containment at some suffix. -/
theorem substrB_eq_any_tails (s t : List Char) :
    substrB s t = t.tails.any (fun u => prefixEq s u) := by
  induction t with
  | nil => simp [substrB, List.tails]
  | cons c ts ih => simp [substrB, List.tails_cons, ih]

/-- The pattern `'%' ++ s ++ '%'` built by the search queries accepts, for
wildcard-free `s`, exactly the texts containing `s` as a substring. -/
theorem likeMatch_pat (s : List Char) (hs : noWild s = true) (t : List Char) :
    likeMatch ('%' :: (s ++ ['%'])) t = substrB s t := by
  have h0 : likeMatch ('%' :: (s ++ ['%'])) t =
      t.tails.any (fun u => likeMatch (s ++ ['%']) u) := by
    simp [likeMatch]
  rw [h0, substrB_eq_any_tails]
  simp only [likeMatch_lit_percent s hs]

/-- Character-list form of the pattern `likePat s`. -/
theorem likePat_data (s : String) : (likePat s).data = '%' :: (s.data ++ ['%']) := by
  simp [likePat, String.data_append]

/-- For a wildcard-free search string the `LIKE` filter used by the search
queries coincides with literal substring containment. -/
theorem sqlLike_eq_containsSub (field s : String) (hs : noWild s.data = true) :
    sqlLike field (likePat s) = containsSub field s := by
  rw [sqlLike, containsSub, likePat_data, likeMatch_pat s.data hs]

/-- C6 (amended): for every search string free of the SQL wildcard
characters `%` and `_`, search by name, surname and email returns exactly
the caller's contacts whose field contains the string as a case-sensitive
literal substring; strings containing `%` or `_` are instead interpreted
under SQL `LIKE` wildcard semantics. -/
theorem search_literal_substring_exact (s : String) (u : User) (db : List Contact)
    (hs : noWild s.data = true) :
    get_contacts_name s u db =
      db.filter (fun c => containsSub c.name s && c.user_id == u.id) ∧
    get_contacts_surname s u db =
      db.filter (fun c => containsSub c.surname s && c.user_id == u.id) ∧
    get_contacts_email s u db =
      db.filter (fun c => containsSub c.email s && c.user_id == u.id) := by
  unfold get_contacts_name get_contacts_surname get_contacts_email
  refine ⟨List.filter_congr ?_, List.filter_congr ?_, List.filter_congr ?_⟩ <;>
    intro c _ <;> rw [sqlLike_eq_containsSub _ s hs]

/-- C6 witness: on a concrete store, searching for the wildcard-free
string "ax" returns exactly the literal-substring matches. -/
theorem search_literal_substring_exact_witness :
    noWild "ax".data = true ∧
    get_contacts_name "ax" demoUser [demoContactAxb] =
      [demoContactAxb].filter
        (fun c => containsSub c.name "ax" && c.user_id == demoUser.id) :=
  ⟨by decide,
    (search_literal_substring_exact "ax" demoUser [demoContactAxb] (by decide)).1⟩

/-- C6 counterexample: searching for the string "a%b" returns the contact
named "axb" although "a%b" is not a literal substring of "axb" — the `%`
acts as a wildcard, refuting literal-substring semantics for search
strings containing `%`. -/
theorem search_wildcard_counterexample :
    get_contacts_name "a%b" demoUser [demoContactAxb] = [demoContactAxb] ∧
    containsSub demoContactAxb.name "a%b" = false := by
  constructor <;> rfl

/-- C5 counterexample: a no-match search returns the empty sequence at the
repository layer, but the public search route turns that empty result into
a raised 404 error, refuting "no error is raised for a no-match search". -/
theorem search_no_match_route_raises :
    get_contacts_name "zz" demoUser [] = [] ∧
    read_contacts_name "zz" demoUser [] = .error .notFound404 := by
  constructor <;> rfl

/-- C5 (amended): a search by name, surname or email whose result set is
empty returns an empty sequence at the repository layer and raises no
error there, but the public route layer converts the empty result into a
404 not-found error. -/
theorem search_no_match_repo_empty_route_404 (s : String) (u : User) (db : List Contact) :
    (get_contacts_name s u db = [] → read_contacts_name s u db = .error .notFound404) ∧
    (get_contacts_surname s u db = [] → read_contacts_surname s u db = .error .notFound404) ∧
    (get_contacts_email s u db = [] → read_contacts_email s u db = .error .notFound404) := by
  refine ⟨?_, ?_, ?_⟩ <;> intro h <;>
    simp [read_contacts_name, read_contacts_surname, read_contacts_email, h]

/-- C5 witness: the no-match name search on an empty store hits the 404
branch of the route. -/
theorem search_no_match_repo_empty_route_404_witness :
    read_contacts_name "zz" demoUser [] = .error .notFound404 :=
  (search_no_match_repo_empty_route_404 "zz" demoUser []).1 rfl

/-- C1 evidence: on December 1st the window keys are "112", …, "712", and
the key of a February 11 birthday is also "112" ("11" + "2"), so the
birthday query returns a contact whose (day, month) pair lies outside the
7-day window — the concatenated day-month key collides across distinct
dates, contradicting the exact-window behavior the function's own
documentation ("birthdays in the next 7 days") describes. -/
theorem get_contacts_birthday_concat_collision :
    get_contacts_birthday ⟨2023, 12, 1⟩ demoUser [demoContactFeb11] = [demoContactFeb11] ∧
    inWindow7 ⟨2023, 12, 1⟩ demoContactFeb11.birthday = false := by
  constructor <;> rfl

/-! ## Ownership-scoping lemmas -/

/-- Rows the predicate rejects keep their membership under
`replaceFirst`. -/
theorem mem_replaceFirst_of_neg {p : Contact → Bool} {c' x : Contact} {l : List Contact}
    (hx : x ∈ l) (hpx : p x = false) : x ∈ replaceFirst p c' l := by
  induction l with
  | nil => cases hx
  | cons a l ih =>
    rcases List.mem_cons.mp hx with rfl | hxl
    · rw [replaceFirst, hpx]
      simp
    · rw [replaceFirst]
      cases h : p a
      · simp only [Bool.false_eq_true, if_false]
        exact List.mem_cons_of_mem _ (ih hxl)
      · simp only [if_true]
        exact List.mem_cons_of_mem _ hxl

/-- Rows the predicate rejects keep their membership under
`removeFirst`. -/
theorem mem_removeFirst_of_neg {p : Contact → Bool} {x : Contact} {l : List Contact}
    (hx : x ∈ l) (hpx : p x = false) : x ∈ removeFirst p l := by
  induction l with
  | nil => cases hx
  | cons a l ih =>
    rcases List.mem_cons.mp hx with rfl | hxl
    · rw [removeFirst, hpx]
      simp
    · rw [removeFirst]
      cases h : p a
      · simp only [Bool.false_eq_true, if_false]
        exact List.mem_cons_of_mem _ (ih hxl)
      · simp only [if_true]
        exact hxl

/-- The row an owner-scoped lookup finds carries the looked-up id and the
caller's user id. -/
theorem find_owner_eq {cid : Nat} {u : User} {db : List Contact} {c : Contact}
    (h : db.find? (fun c => c.id == cid && c.user_id == u.id) = some c) :
    c.id = cid ∧ c.user_id = u.id := by
  have hp := List.find?_some h
  rw [Bool.and_eq_true, beq_iff_eq, beq_iff_eq] at hp
  exact hp

/-- C2: a user distinct from a contact's owner can never observe the
contact through list, get, the three searches or the birthday query, is
never handed it back by update or delete, and update and delete leave the
foreign-owned row stored untouched — every operation filters by the
calling user's id. -/
theorem contacts_owner_scoped (u : User) (db : List Contact) (c1 : Contact)
    (hmem : c1 ∈ db) (hne : c1.user_id ≠ u.id) :
    (∀ skip limit, c1 ∉ get_contacts skip limit u db) ∧
    (∀ cid, get_contact cid u db ≠ some c1) ∧
    (∀ s, c1 ∉ get_contacts_name s u db) ∧
    (∀ s, c1 ∉ get_contacts_surname s u db) ∧
    (∀ s, c1 ∉ get_contacts_email s u db) ∧
    (∀ today, c1 ∉ get_contacts_birthday today u db) ∧
    (∀ cid body, (update_contact cid body u db).1 ≠ .ok (some c1) ∧
      c1 ∈ (update_contact cid body u db).2) ∧
    (∀ cid, (remove_contact cid u db).1 ≠ some c1 ∧
      c1 ∈ (remove_contact cid u db).2) := by
  have hbeq : (c1.user_id == u.id) = false := by
    simpa using hne
  have hpredF : ∀ cid : Nat, (c1.id == cid && c1.user_id == u.id) = false := by
    intro cid
    rw [hbeq, Bool.and_false]
  refine ⟨?_, ?_, ?_, ?_, ?_, ?_, ?_, ?_⟩
  · intro skip limit hc
    rw [get_contacts] at hc
    have h2 := List.drop_subset skip _ (List.take_subset limit _ hc)
    have h3 := (List.mem_filter.mp h2).2
    rw [hbeq] at h3
    cases h3
  · intro cid h
    have := List.find?_some h
    rw [hpredF cid] at this
    cases this
  · intro s hc
    have h3 := (List.mem_filter.mp hc).2
    rw [Bool.and_eq_true, hbeq] at h3
    cases h3.2
  · intro s hc
    have h3 := (List.mem_filter.mp hc).2
    rw [Bool.and_eq_true, hbeq] at h3
    cases h3.2
  · intro s hc
    have h3 := (List.mem_filter.mp hc).2
    rw [Bool.and_eq_true, hbeq] at h3
    cases h3.2
  · intro today hc
    have h3 := (List.mem_filter.mp hc).2
    rw [Bool.and_eq_true, hbeq] at h3
    cases h3.2
  · intro cid body
    cases hfind : db.find? (fun c => c.id == cid && c.user_id == u.id) with
    | none =>
      rw [update_contact, hfind]
      exact ⟨by simp, hmem⟩
    | some c =>
      rw [update_contact, hfind]
      dsimp only
      split
      · exact ⟨by simp, hmem⟩
      · split
        · exact ⟨by simp, hmem⟩
        · constructor
          · intro hsome
            rw [Prod.fst, Except.ok.injEq, Option.some.injEq] at hsome
            have hcu : c.user_id = u.id := (find_owner_eq hfind).2
            have h2 : (applyUpdate body c).user_id = c1.user_id := by rw [hsome]
            rw [applyUpdate] at h2
            exact hne (h2 ▸ hcu)
          · exact mem_replaceFirst_of_neg hmem (hpredF cid)
  · intro cid
    cases hfind : db.find? (fun c => c.id == cid && c.user_id == u.id) with
    | none =>
      rw [remove_contact, hfind]
      exact ⟨by simp, hmem⟩
    | some c =>
      rw [remove_contact, hfind]
      constructor
      · intro hsome
        have hcu : c.user_id = u.id := (find_owner_eq hfind).2
        rw [Option.some_inj.mp hsome] at hcu
        exact hne hcu
      · exact mem_removeFirst_of_neg hmem (hpredF cid)

/-- C2 witness: user 2 can neither observe nor delete user 1's contact. -/
theorem contacts_owner_scoped_witness :
    demoContactFeb11 ∉ get_contacts 0 100 demoUserB [demoContactFeb11] ∧
    get_contact 1 demoUserB [demoContactFeb11] ≠ some demoContactFeb11 ∧
    demoContactFeb11 ∈ (remove_contact 1 demoUserB [demoContactFeb11]).2 :=
  have h := contacts_owner_scoped demoUserB [demoContactFeb11] demoContactFeb11
    (List.mem_singleton.mpr rfl) (by decide)
  ⟨h.1 0 100, h.2.1 1, (h.2.2.2.2.2.2.2 1).2⟩

/-- C3: when no stored contact carries the requested id with the caller as
owner — the id is absent or foreign-owned — get returns `None` and update
and delete return `None` leaving the store exactly as it was; none of the
three raises. -/
theorem absent_contact_ops_noop (u : User) (db : List Contact) (cid : Nat)
    (h : ∀ c ∈ db, c.id = cid → c.user_id ≠ u.id) :
    get_contact cid u db = none ∧
    (∀ body, update_contact cid body u db = (.ok none, db)) ∧
    remove_contact cid u db = (none, db) := by
  have hfind : db.find? (fun c => c.id == cid && c.user_id == u.id) = none := by
    rw [List.find?_eq_none]
    intro x hx hpx
    rw [Bool.and_eq_true, beq_iff_eq, beq_iff_eq] at hpx
    exact h x hx hpx.1 hpx.2
  refine ⟨?_, ?_, ?_⟩
  · rw [get_contact, hfind]
  · intro body
    rw [update_contact, hfind]
  · rw [remove_contact, hfind]

/-- C3 witness: id 99 is absent from the store, and id 1 is owned by user
1, so user 2's get and delete on both come back `None` with the store
unchanged. -/
theorem absent_contact_ops_noop_witness :
    get_contact 99 demoUser [demoContactFeb11] = none ∧
    remove_contact 99 demoUser [demoContactFeb11] = (none, [demoContactFeb11]) ∧
    get_contact 1 demoUserB [demoContactFeb11] = none ∧
    remove_contact 1 demoUserB [demoContactFeb11] = (none, [demoContactFeb11]) :=
  have h99 := absent_contact_ops_noop demoUser [demoContactFeb11] 99 (by decide)
  have hB := absent_contact_ops_noop demoUserB [demoContactFeb11] 1 (by decide)
  ⟨h99.1, h99.2.2, hB.1, hB.2.2⟩

/-- The replacement row is stored whenever the owner-scoped lookup found a
row to overwrite. -/
theorem mem_replaceFirst_self {p : Contact → Bool} {c' : Contact} {l : List Contact}
    {a : Contact} (h : l.find? p = some a) : c' ∈ replaceFirst p c' l := by
  induction l with
  | nil => cases h
  | cons x xs ih =>
    rw [replaceFirst]
    cases hx : p x
    · rw [List.find?_cons_of_neg _ (by simp [hx])] at h
      simp only [Bool.false_eq_true, if_false]
      exact List.mem_cons_of_mem _ (ih h)
    · simp

/-- Deleting the first match leaves a prefix free of matches untouched. -/
theorem removeFirst_append_not {p : Contact → Bool} {l1 l2 : List Contact}
    (h : ∀ x ∈ l1, p x = false) :
    removeFirst p (l1 ++ l2) = l1 ++ removeFirst p l2 := by
  induction l1 with
  | nil => rfl
  | cons a l ih =>
    rw [List.cons_append, removeFirst, h a (List.mem_cons_self a l)]
    simp only [Bool.false_eq_true, if_false, List.cons_append]
    rw [ih (fun x hx => h x (List.mem_cons_of_mem a hx))]

/-- Shape of a successful insert: the committed row carries exactly the
body's fields, the generated id and the caller's ownership, and is
appended to the store. -/
theorem create_contact_ok_shape {body : ContactModel} {u : User} {newId : Nat}
    {db : List Contact} {c : Contact} {db1 : List Contact}
    (h : create_contact body u newId db = .ok (c, db1)) :
    db1 = db ++ [c] ∧ c.id = newId ∧ c.user_id = u.id ∧
    c.name = body.name ∧ c.surname = body.surname ∧ c.email = body.email ∧
    c.phone = body.phone ∧ c.birthday_year = body.birthday_year ∧
    c.birthday_month = body.birthday_month ∧ c.birthday_day = body.birthday_day ∧
    c.description = some body.description := by
  simp only [create_contact, dbInsertContact] at h
  split at h
  · cases h
  next x db' heq =>
    rw [Except.ok.injEq, Prod.mk.injEq] at h
    obtain ⟨hc, hdb⟩ := h
    subst hdb
    split at heq
    · cases heq
    · split at heq
      · cases heq
      · rw [Except.ok.injEq] at heq
        rw [← hc, ← heq]
        exact ⟨rfl, rfl, rfl, rfl, rfl, rfl, rfl, rfl, rfl, rfl, rfl⟩

/-- C4: committing a second contact whose email or phone equals that of an
already-stored contact — whoever owns either — violates the table's global
unique constraints: the insert fails with a uniqueness error and the first
contact is still stored with its original field values. -/
theorem create_contact_duplicate_conflict
    (body1 body2 : ContactModel) (uA uB : User) (n1 n2 : Nat) (db db1 : List Contact)
    (c1 : Contact)
    (h1 : create_contact body1 uA n1 db = .ok (c1, db1))
    (hdup : body2.email = body1.email ∨ body2.phone = body1.phone) :
    (∃ e, create_contact body2 uB n2 db1 = .error e) ∧
    c1 ∈ db1 ∧ c1.email = body1.email ∧ c1.phone = body1.phone ∧
    c1.name = body1.name ∧ c1.user_id = uA.id := by
  obtain ⟨hdb1, _, huid, hnm, _, hem, hph, _⟩ := create_contact_ok_shape h1
  have hmem1 : c1 ∈ db1 := by
    rw [hdb1]
    exact List.mem_append.mpr (Or.inr (List.mem_singleton.mpr rfl))
  refine ⟨?_, hmem1, hem, hph, hnm, huid⟩
  simp only [create_contact, dbInsertContact]
  by_cases he : (db1.any (fun x => x.email == body2.email)) = true
  · exact ⟨.uniqueEmail, by simp [he]⟩
  · rcases hdup with hde | hdp
    · exact absurd (List.any_eq_true.mpr
        ⟨c1, hmem1, by rw [beq_iff_eq, hem, hde]⟩) he
    · have hp : (db1.any (fun x => x.phone == body2.phone)) = true :=
        List.any_eq_true.mpr ⟨c1, hmem1, by rw [beq_iff_eq, hph, hdp]⟩
      exact ⟨.uniquePhone, by simp [he, hp]⟩

/-- C4 witness: after storing the round-trip contact, a second create by
another user reusing its email is rejected with a uniqueness error. -/
theorem create_contact_duplicate_conflict_witness :
    ∃ e, create_contact demoBodyDupEmail demoUserB 2 [demoCreated] = .error e :=
  (create_contact_duplicate_conflict demoBody demoBodyDupEmail demoUser demoUserB
    1 2 [] [demoCreated] demoCreated (by rfl) (Or.inl rfl)).1

/-- C7: `create_user` always inserts the new user and returns it: a failed
gravatar lookup is swallowed and leaves the avatar null, a successful one
stores the resolved URL, and in neither case does the failure reach the
caller. -/
theorem create_user_tolerates_avatar_failure (body : UserModel)
    (gravatar : Except String String) (newId : Nat) (db : List User) :
    (create_user body gravatar newId db).2 = db ++ [(create_user body gravatar newId db).1] ∧
    (create_user body gravatar newId db).1.username = body.username ∧
    (create_user body gravatar newId db).1.email = body.email ∧
    (∀ e, gravatar = .error e → (create_user body gravatar newId db).1.avatar = none) ∧
    (∀ url, gravatar = .ok url → (create_user body gravatar newId db).1.avatar = some url) := by
  cases gravatar <;> simp [create_user]

/-- C7 witness: with a failing lookup the user is stored with a null
avatar; with a succeeding one the URL is stored. -/
theorem create_user_tolerates_avatar_failure_witness :
    (create_user demoUserBody (.error "boom") 3 []).1.avatar = none ∧
    (create_user demoUserBody (.ok "http://g/av") 3 []).1.avatar = some "http://g/av" :=
  ⟨(create_user_tolerates_avatar_failure demoUserBody (.error "boom") 3 []).2.2.2.1
      "boom" rfl,
   (create_user_tolerates_avatar_failure demoUserBody (.ok "http://g/av") 3 []).2.2.2.2
      "http://g/av" rfl⟩

/-- C8 counterexample: the owner of contact 1 updates it with a body whose
email equals another stored contact's email; the commit violates the
global unique constraint, so the call raises a uniqueness error and the
store is unchanged — no full-field overwrite happens, refuting the claim
that an owner's update of an existing contact always commits the
overwrite. -/
theorem update_collision_counterexample :
    update_contact 1 demoBodyDupEmail demoUser [demoContactFeb11, demoCreated] =
      (.error .uniqueEmail, [demoContactFeb11, demoCreated]) ∧
    demoContactFeb11.email ≠ demoBodyDupEmail.email := by
  constructor
  · rfl
  · decide

/-- C8 (amended): when the owner updates an existing contact and the new
email and phone collide with no other stored contact, the stored and
returned row carries the six body fields — a full-field overwrite — while
its id and owning user id are exactly those of the row that was found, so
an update can never transfer a contact to another user; an update whose
email or phone equals another stored contact's fails with a uniqueness
error and overwrites nothing. -/
theorem update_contact_full_overwrite (cid : Nat) (body : ContactModel) (u : User)
    (db : List Contact) (c0 : Contact)
    (hfind : db.find? (fun c => c.id == cid && c.user_id == u.id) = some c0)
    (hemail : ∀ x ∈ removeFirst (fun c => c.id == cid && c.user_id == u.id) db,
      x.email ≠ body.email)
    (hphone : ∀ x ∈ removeFirst (fun c => c.id == cid && c.user_id == u.id) db,
      x.phone ≠ body.phone) :
    ∃ c', (update_contact cid body u db).1 = .ok (some c') ∧
      c' ∈ (update_contact cid body u db).2 ∧
      c'.name = body.name ∧ c'.surname = body.surname ∧ c'.email = body.email ∧
      c'.phone = body.phone ∧ c'.birthday_year = body.birthday_year ∧
      c'.birthday_month = body.birthday_month ∧ c'.birthday_day = body.birthday_day ∧
      c'.description = some body.description ∧
      c'.id = c0.id ∧ c'.user_id = c0.user_id ∧ c'.user_id = u.id := by
  have he : ((removeFirst (fun c => c.id == cid && c.user_id == u.id) db).any
      (fun x => x.email == (applyUpdate body c0).email)) = false := by
    rw [List.any_eq_false]
    intro x hx
    simpa [applyUpdate] using hemail x hx
  have hp : ((removeFirst (fun c => c.id == cid && c.user_id == u.id) db).any
      (fun x => x.phone == (applyUpdate body c0).phone)) = false := by
    rw [List.any_eq_false]
    intro x hx
    simpa [applyUpdate] using hphone x hx
  have hres : update_contact cid body u db =
      (.ok (some (applyUpdate body c0)),
        replaceFirst (fun c => c.id == cid && c.user_id == u.id) (applyUpdate body c0) db) := by
    rw [update_contact, hfind]
    dsimp only
    rw [he, hp]
    simp
  refine ⟨applyUpdate body c0, ?_⟩
  rw [hres]
  exact ⟨rfl, mem_replaceFirst_self hfind, rfl, rfl, rfl, rfl, rfl, rfl, rfl, rfl,
    rfl, rfl, (find_owner_eq hfind).2⟩

/-- C8 witness: updating the only stored contact as its owner — no other
row to collide with — overwrites the six fields and keeps id 1 owned by
user 1. -/
theorem update_contact_full_overwrite_witness :
    ∃ c', (update_contact 1 demoBody demoUser [demoContactFeb11]).1 = .ok (some c') ∧
      c' ∈ (update_contact 1 demoBody demoUser [demoContactFeb11]).2 ∧
      c'.name = demoBody.name ∧ c'.surname = demoBody.surname ∧
      c'.email = demoBody.email ∧ c'.phone = demoBody.phone ∧
      c'.birthday_year = demoBody.birthday_year ∧
      c'.birthday_month = demoBody.birthday_month ∧
      c'.birthday_day = demoBody.birthday_day ∧
      c'.description = some demoBody.description ∧
      c'.id = demoContactFeb11.id ∧ c'.user_id = demoContactFeb11.user_id ∧
      c'.user_id = demoUser.id :=
  update_contact_full_overwrite 1 demoBody demoUser [demoContactFeb11] demoContactFeb11
    (by rfl) (by decide) (by decide)

/-- C9: a successful create returns a row carrying the generated id, the
caller's ownership and exactly the body's fields; the owner's get on that
id then returns that very row, delete removes it restoring the previous
store, after which get on the id returns `None`. -/
theorem create_get_remove_roundtrip (body : ContactModel) (u : User) (newId : Nat)
    (db : List Contact) (c : Contact) (db1 : List Contact)
    (hfresh : ∀ x ∈ db, x.id ≠ newId)
    (hok : create_contact body u newId db = .ok (c, db1)) :
    c.id = newId ∧ c.name = body.name ∧ c.surname = body.surname ∧
    c.email = body.email ∧ c.phone = body.phone ∧
    c.birthday_year = body.birthday_year ∧ c.birthday_month = body.birthday_month ∧
    c.birthday_day = body.birthday_day ∧ c.description = some body.description ∧
    get_contact newId u db1 = some c ∧
    remove_contact newId u db1 = (some c, db) ∧
    get_contact newId u db = none := by
  have hpredF : ∀ x ∈ db, (x.id == newId && x.user_id == u.id) = false := by
    intro x hx
    have : (x.id == newId) = false := by
      simpa using hfresh x hx
    rw [this, Bool.false_and]
  have hfinddb : db.find? (fun x => x.id == newId && x.user_id == u.id) = none := by
    rw [List.find?_eq_none]
    intro x hx hpx
    rw [hpredF x hx] at hpx
    cases hpx
  obtain ⟨hdb1, hid, huid, hnm, hsn, hem, hph, hby, hbm, hbd, hdc⟩ :=
    create_contact_ok_shape hok
  have hpredC : (c.id == newId && c.user_id == u.id) = true := by
    rw [hid, huid]
    simp
  have hfind1 : db1.find? (fun x => x.id == newId && x.user_id == u.id) = some c := by
    rw [hdb1, List.find?_append, hfinddb, Option.none_or]
    exact List.find?_cons_of_pos _ hpredC
  refine ⟨hid, hnm, hsn, hem, hph, hby, hbm, hbd, hdc, ?_, ?_, ?_⟩
  · rw [get_contact, hfind1]
  · rw [remove_contact, hfind1, hdb1, removeFirst_append_not hpredF]
    simp [removeFirst, hpredC]
  · rw [get_contact, hfinddb]

/-- C9 witness: the spec's round-trip scenario on an empty store — create,
get back the identical fields, delete, then get returns `None`. -/
theorem create_get_remove_roundtrip_witness :
    demoCreated.name = demoBody.name ∧ demoCreated.email = demoBody.email ∧
    get_contact 1 demoUser [demoCreated] = some demoCreated ∧
    remove_contact 1 demoUser [demoCreated] = (some demoCreated, []) ∧
    get_contact 1 demoUser [] = none :=
  have h := create_get_remove_roundtrip demoBody demoUser 1 [] demoCreated [demoCreated]
    (by simp) (by rfl)
  ⟨h.2.1, h.2.2.2.1, h.2.2.2.2.2.2.2.2.2.1, h.2.2.2.2.2.2.2.2.2.2.1,
    h.2.2.2.2.2.2.2.2.2.2.2⟩

/-- C10: `confirmed_email` and `update_avatar` presuppose a user with the
given email exists — on an absent email the lookup returns `None` and both
operations raise (attribute access on `None`) instead of returning absent
or no-op'ing; when the lookup succeeds the error branch is unreachable and
both succeed. -/
theorem users_email_precondition (email url : String) (db : List User) :
    (get_user_by_email email db = none →
      confirmed_email email db = .error .attributeError ∧
      update_avatar email url db = .error .attributeError) ∧
    (∀ u, get_user_by_email email db = some u →
      (∃ db', confirmed_email email db = .ok db') ∧
      (∃ r, update_avatar email url db = .ok r)) := by
  constructor
  · intro h
    rw [confirmed_email, update_avatar, h]
    exact ⟨rfl, rfl⟩
  · intro u hu
    rw [confirmed_email, update_avatar, hu]
    exact ⟨⟨_, rfl⟩, ⟨_, rfl⟩⟩

/-- C10 witness: on an empty store a confirmation for an unknown email
raises, while on a store holding the user both operations succeed. -/
theorem users_email_precondition_witness :
    confirmed_email "ghost@example.com" [] = .error .attributeError ∧
    update_avatar "ghost@example.com" "http://g/av" [] = .error .attributeError ∧
    (∃ db', confirmed_email "alice@example.com" [demoUser] = .ok db') ∧
    (∃ r, update_avatar "alice@example.com" "http://g/av" [demoUser] = .ok r) :=
  have h1 := (users_email_precondition "ghost@example.com" "http://g/av" []).1 rfl
  have h2 := (users_email_precondition "alice@example.com" "http://g/av" [demoUser]).2
    demoUser (by rfl)
  ⟨h1.1, h1.2, h2.1, h2.2⟩

